import Mathlib

/-!
Shallow embedding of the Pistols at Dawn agent (`agent-pistols`).

The repository is a TypeScript agent whose protocol core is a set of
action handlers (`commit_moves`, `reveal_moves`, `accept_challenge`,
`fetch_challenges`, `analyze_duel_history`, ...) acting on a shared
`PistolsState`.  Each handler is embedded here as a pure function from
the pre-state, the handler arguments, and the behaviour of the external
write collaborator (`starknetChain.write`) to the post-state, the
returned result shape, and the ordered trace of externally visible
steps (contract-write submissions and secret-store writes).  The random
salt drawn by `commit_moves` and the external `make_moves_hash`
function are passed in as parameters, since they live outside the
repository.
-/

/-- A secret stored under `state.committedMoves[duelId]` at commit time:
the random salt, the move tuple, and the derived commitment hash. -/
structure StoredSecret where
  salt : Nat
  moves : List Int
  hash : Nat
deriving DecidableEq

/-- One event emitted by a confirmed transaction (the handlers only
inspect whether the `events` array is non-empty). -/
structure TxEvent where
  data : List String
deriving DecidableEq

/-- Behaviour of one `starknetChain.write` call: the promise either
rejects with an error message or resolves with a list of emitted events. -/
inductive WriteResult where
  | rejects (msg : String)
  | resolves (events : List TxEvent)
deriving DecidableEq

/-- The confirmation test the handlers apply to a write response:
`response.events && response.events.length > 0`. -/
def WriteResult.confirmed : WriteResult → Bool
  | .rejects _ => false
  | .resolves events => events.length > 0

/-- Challenge record as returned by the read API (`ChallengeData` in
`types.ts`); `ts_start` and `ts_end` are `timestamps.start` and
`timestamps.end`. -/
structure ChallengeData where
  duel_id : String
  table_id : String
  premise : String
  quote : String
  address_a : String
  address_b : String
  duelist_id_a : String
  duelist_id_b : String
  state : String
  winner : Option String
  ts_start : Nat
  ts_end : Option Nat
deriving DecidableEq

/-- Challenge with the per-side `duelist_id` field added when the two
query halves are merged (`Challenge` in the agent source). -/
structure Challenge extends ChallengeData where
  duelist_id : String
deriving DecidableEq

/-- The slice of `PistolsState` touched by the embedded handlers.
`committedMoves` is the keyed secret store (a JS object keyed by duel
id), modelled as an association list. -/
structure PistolsState where
  playerAddress : String
  duelistId : String
  activeChallenge : String
  activeChallenges : List Challenge
  challengeState : String
  committedMoves : List (String × StoredSecret)
deriving DecidableEq

/-- Lookup `state.committedMoves[duelId]`. -/
def storeGet (m : List (String × StoredSecret)) (k : String) : Option StoredSecret :=
  match m with
  | [] => none
  | (q, v) :: rest => if q = k then some v else storeGet rest k

/-- Assignment `state.committedMoves[duelId] = v` on a JS object:
replace the binding when the key is present, append it otherwise. -/
def storeSet (m : List (String × StoredSecret)) (k : String) (v : StoredSecret) :
    List (String × StoredSecret) :=
  match m with
  | [] => [(k, v)]
  | (q, w) :: rest => if q = k then (k, v) :: rest else (q, w) :: storeSet rest k v

/-- Deletion `delete state.committedMoves[duelId]`. -/
def storeDelete (m : List (String × StoredSecret)) (k : String) :
    List (String × StoredSecret) :=
  match m with
  | [] => []
  | (q, w) :: rest => if q = k then storeDelete rest k else (q, w) :: storeDelete rest k

/-- Externally visible steps of a handler execution, in program order:
contract-write submissions and local secret-store writes. -/
inductive Step where
  | submitCommit (duelistId duelId : String) (hash : Nat)
  | submitReveal (duelistId duelId : String) (salt : Nat) (moves : List Int)
  | submitReply (duelistId challengeId : String)
  | persistSecret (duelId : String) (secret : StoredSecret)
  | deleteSecret (duelId : String)
deriving DecidableEq

/-- Whether a step is an external contract-write submission. -/
def Step.isExternalWrite : Step → Bool
  | .submitCommit _ _ _ => true
  | .submitReveal _ _ _ _ => true
  | .submitReply _ _ => true
  | .persistSecret _ _ => false
  | .deleteSecret _ => false

/-- The uniform result shape the handlers return: success flag,
human-readable message, error detail on failure, and the salt / moves /
hash echo fields used by `commit_moves` and `reveal_moves`. -/
structure ActionResult where
  success : Bool
  message : String
  error : Option String := none
  salt : Option Nat := none
  moves : Option (List Int) := none
  hash : Option Nat := none
deriving DecidableEq

/-- One handler execution: post-state, returned result, step trace. -/
structure HandlerOut where
  state : PistolsState
  result : ActionResult
  trace : List Step
deriving DecidableEq

/-- Embedding of the `commit_moves` action handler.  `hashFn` stands
for the external `make_moves_hash`, `salt` for the drawn value of
`Math.floor(Math.random() * 0xFFFFFFFF)`, and `wr` for the behaviour of
the `starknetChain.write` call.  The handler submits the commit write
first and stores the secret afterwards, only when the response carries
events; the no-events branch raises, and the catch block turns any
raise into the failure result. -/
def commit_moves (hashFn : Nat → List Int → Nat) (st : PistolsState)
    (duelistId duelId : String) (moves : List Int) (salt : Nat)
    (wr : WriteResult) : HandlerOut :=
  let hash := hashFn salt moves
  match wr with
  | .rejects msg =>
      { state := st
        result := { success := false, message := "Failed to commit moves", error := some msg }
        trace := [.submitCommit duelistId duelId hash] }
  | .resolves events =>
      if events.length > 0 then
        let secret : StoredSecret := { salt := salt, moves := moves, hash := hash }
        { state := { st with
            activeChallenge := duelId
            duelistId := duelistId
            committedMoves := storeSet st.committedMoves duelId secret }
          result := { success := true, message := "Moves successfully committed",
                      salt := some salt, moves := some moves, hash := some hash }
          trace := [.submitCommit duelistId duelId hash, .persistSecret duelId secret] }
      else
        { state := st
          result := { success := false, message := "Failed to commit moves",
                      error := some "Commit transaction did not emit events" }
          trace := [.submitCommit duelistId duelId hash] }

/-- Embedding of the `reveal_moves` action handler.  A missing stored
secret raises before any write is issued; otherwise the reveal write is
submitted with the stored salt and moves, and the secret is deleted
only when the response carries events. -/
def reveal_moves (st : PistolsState) (duelistId duelId : String)
    (wr : WriteResult) : HandlerOut :=
  match storeGet st.committedMoves duelId with
  | none =>
      { state := st
        result := { success := false, message := "Failed to reveal moves",
                    error := some "No committed moves found for this duel" }
        trace := [] }
  | some storedMoves =>
      match wr with
      | .rejects msg =>
          { state := st
            result := { success := false, message := "Failed to reveal moves", error := some msg }
            trace := [.submitReveal duelistId duelId storedMoves.salt storedMoves.moves] }
      | .resolves events =>
          if events.length > 0 then
            { state := { st with
                committedMoves := storeDelete st.committedMoves duelId
                activeChallenge := duelId
                duelistId := duelistId }
              result := { success := true, message := "Moves successfully revealed",
                          salt := some storedMoves.salt, moves := some storedMoves.moves }
              trace := [.submitReveal duelistId duelId storedMoves.salt storedMoves.moves,
                        .deleteSecret duelId] }
          else
            { state := st
              result := { success := false, message := "Failed to reveal moves",
                          error := some "Reveal transaction did not emit events" }
              trace := [.submitReveal duelistId duelId storedMoves.salt storedMoves.moves] }

/-- Embedding of the `accept_challenge` action handler: it submits the
`reply_duel` write unconditionally, and on a resolving write records
the challenge as in progress and patches the accepted challenge in
`activeChallenges` (setting its B-side duelist). -/
def accept_challenge (st : PistolsState) (duelistId challengeId : String)
    (wr : WriteResult) : HandlerOut :=
  match wr with
  | .rejects msg =>
      { state := st
        result := { success := false, message := "Failed to accept challenge", error := some msg }
        trace := [.submitReply duelistId challengeId] }
  | .resolves _ =>
      { state := { st with
          activeChallenge := challengeId
          duelistId := duelistId
          challengeState := "InProgress"
          activeChallenges := st.activeChallenges.map fun c =>
            if c.duel_id = challengeId then
              { c with state := "InProgress", duelist_id_b := duelistId }
            else c }
        result := { success := true, message := "Challenge successfully accepted" }
        trace := [.submitReply duelistId challengeId] }

/-- The `statePriority` lookup table used by the `fetch_challenges`
sort comparator. -/
def statePriority (s : String) : Nat :=
  if s = "InProgress" then 0
  else if s = "Awaiting" then 1
  else if s = "Resolved" then 2
  else if s = "Draw" then 3
  else if s = "Refused" then 4
  else if s = "Withdrawn" then 5
  else if s = "Expired" then 6
  else if s = "Null" then 7
  else 8

/-- The `fetch_challenges` sort comparator read as a comes-no-later
relation: the comparator value for `(a, b)` is non-positive exactly
when `a` has strictly smaller state priority, or equal priority and a
start timestamp at least that of `b` (descending start order). -/
def challengeBefore (a b : Challenge) : Prop :=
  statePriority a.state < statePriority b.state ∨
    (statePriority a.state = statePriority b.state ∧ b.ts_start ≤ a.ts_start)

instance : DecidableRel challengeBefore := fun a b => by
  unfold challengeBefore; exact inferInstance

instance : IsTotal Challenge challengeBefore := by
  constructor
  intro a b
  unfold challengeBefore
  omega

instance : IsTrans Challenge challengeBefore := by
  constructor
  intro a b c hab hbc
  unfold challengeBefore at hab hbc ⊢
  omega

/-- The A-side query half, tagged with `duelist_id := duelist_id_a`. -/
def challengesAsA (l : List ChallengeData) : List Challenge :=
  l.map fun n => { toChallengeData := n, duelist_id := n.duelist_id_a }

/-- The B-side query half, tagged with `duelist_id := duelist_id_b`. -/
def challengesAsB (l : List ChallengeData) : List Challenge :=
  l.map fun n => { toChallengeData := n, duelist_id := n.duelist_id_b }

/-- The merged challenge list sorted with the comparator: state
priority first, then descending start timestamp.  The JS `Array.sort`
call is modelled by insertion sort with respect to the comparator
relation, which produces a permutation sorted the same way. -/
def sortedChallenges (aL bL : List ChallengeData) : List Challenge :=
  List.insertionSort challengeBefore (challengesAsA aL ++ challengesAsB bL)

/-- The active-state test applied after sorting. -/
def isActiveState (c : Challenge) : Bool :=
  c.state == "InProgress" || c.state == "Awaiting"

/-- The `activeChallenges` list computed by `fetch_challenges`. -/
def activeChallengesOf (aL bL : List ChallengeData) : List Challenge :=
  (sortedChallenges aL bL).filter isActiveState

/-- The state update a successful `fetch_challenges` performs: only
when the active list is non-empty does it overwrite
`state.activeChallenges` (re-tagging every entry with
`duelist_id := duelist_id_a`), set the current challenge and its state
from the head of the active list, and — when that head is in progress —
set `duelistId` to the head's A-side duelist. -/
def fetch_challenges_update (st : PistolsState) (aL bL : List ChallengeData) : PistolsState :=
  match activeChallengesOf aL bL with
  | [] => st
  | cur :: rest =>
      { st with
        activeChallenges := (cur :: rest).map fun c => { c with duelist_id := c.duelist_id_a }
        activeChallenge := cur.duel_id
        challengeState := cur.state
        duelistId := if cur.state == "InProgress" then cur.duelist_id_a else st.duelistId }

/-- Embedding of `normalizeStarknetAddress`: strip a `0x` prefix, drop
leading zeros, lowercase (ASCII, matching the hex alphabet the
addresses use), and re-prefix `0x`.  The JS falsy guard on the empty
string is the `""` case. -/
def normalizeStarknetAddress (address : String) : String :=
  if address = "" then address
  else
    let stripped :=
      match address.data with
      | '0' :: 'x' :: rest => rest
      | chars => chars
    let normalized := stripped.dropWhile fun c => c == '0'
    String.mk ('0' :: 'x' :: normalized.map Char.toLower)

/-- The per-duel record `analyze_duel_history` builds when constructing
`duelMap`: the A-side test is raw string equality of the record's
`address_a` against the handler's (already normalized) player address,
and the outcome label compares the raw winner field against the own
duelist id picked by that same raw test. -/
def duelInfo (c : ChallengeData) (playerAddress : String) : Bool × String :=
  (c.address_a == playerAddress,
   if c.state == "Draw" then "draw"
   else
     let own := if c.address_a == playerAddress then c.duelist_id_a else c.duelist_id_b
     match c.winner with
     | some w => if w == own then "win" else "loss"
     | none => "loss")

/-- The `isPlayerA` classification as a function of the caller-supplied
address: `analyze_duel_history` normalizes its input once on entry and
then compares raw `address_a` strings. -/
def analyze_isPlayerA (c : ChallengeData) (inputAddress : String) : Bool :=
  (duelInfo c (normalizeStarknetAddress inputAddress)).1

/-- The move-tuple validity criterion of the specification (exactly
four values, firing and dodge steps in 1-10 and distinct), used to
state the validation claims; the `commit_moves` handler itself performs
no such check. -/
def specValidMoves (moves : List Int) : Bool :=
  match moves with
  | [fire, dodge, _, _] =>
      decide (1 ≤ fire) && decide (fire ≤ 10) &&
        decide (1 ≤ dodge) && decide (dodge ≤ 10) && decide (fire ≠ dodge)
  | _ => false

/-- Auxiliary scan for `secretPersistedBeforeSubmit`, threading the set
of duel ids whose secret has been persisted so far. -/
def secretPersistedBeforeSubmitAux : List String → List Step → Bool
  | _, [] => true
  | stored, .persistSecret d _ :: rest => secretPersistedBeforeSubmitAux (d :: stored) rest
  | stored, .submitCommit _ d _ :: rest =>
      stored.contains d && secretPersistedBeforeSubmitAux stored rest
  | stored, _ :: rest => secretPersistedBeforeSubmitAux stored rest

/-- Whether, along a trace, every external commit submission for a duel
id is preceded by a persisted secret for that same duel id. -/
def secretPersistedBeforeSubmit (tr : List Step) : Bool :=
  secretPersistedBeforeSubmitAux [] tr

/-- A baseline agent state for concrete executions. -/
def stEmpty : PistolsState :=
  { playerAddress := "0xa", duelistId := "", activeChallenge := "",
    activeChallenges := [], challengeState := "", committedMoves := [] }

/-- Concrete stand-in for the external `make_moves_hash` in closed
executions; none of the claims settled here depend on hash values. -/
def hashFnEx (salt : Nat) (moves : List Int) : Nat :=
  salt + moves.length

/-- A sample emitted event, making a write response count as confirmed. -/
def evEx : TxEvent :=
  { data := ["0x1"] }

/-- A first committed secret for duel id "1". -/
def firstSecretEx : StoredSecret :=
  { salt := 5, moves := [1, 2, 3, 4], hash := 99 }

/-- A state holding the first secret for duel id "1". -/
def stWithSecret : PistolsState :=
  { stEmpty with committedMoves := [("1", firstSecretEx)] }

/-- An awaiting challenge whose expiry deadline (timestamps.end) is 100. -/
def chExpired : Challenge :=
  { duel_id := "d1", table_id := "t", premise := "1", quote := "ha",
    address_a := "0xb", address_b := "0xa",
    duelist_id_a := "7", duelist_id_b := "",
    state := "Awaiting", winner := none, ts_start := 50, ts_end := some 100,
    duelist_id := "7" }

/-- A state whose ledger mirror holds the expired challenge. -/
def stWithExpired : PistolsState :=
  { stEmpty with activeChallenges := [chExpired] }

/-- A resolved challenge record whose raw A-side address carries a
leading zero, as the read API may return it. -/
def chC8 : ChallengeData :=
  { duel_id := "d8", table_id := "t", premise := "1", quote := "q",
    address_a := "0x0abc", address_b := "0xdef",
    duelist_id_a := "7", duelist_id_b := "3",
    state := "Resolved", winner := some "7", ts_start := 10, ts_end := some 20 }

/-- A second such record with an uppercase non-canonical A-side address. -/
def chC8w : ChallengeData :=
  { duel_id := "d9", table_id := "t", premise := "1", quote := "q",
    address_a := "0x0ABC", address_b := "0xdef",
    duelist_id_a := "7", duelist_id_b := "3",
    state := "Resolved", winner := some "3", ts_start := 11, ts_end := some 21 }

/-- A B-side awaiting challenge record for concrete fetch executions. -/
def chDataEx : ChallengeData :=
  { duel_id := "d2", table_id := "t", premise := "1", quote := "q",
    address_a := "0xb", address_b := "0xa",
    duelist_id_a := "9", duelist_id_b := "4",
    state := "Awaiting", winner := none, ts_start := 30, ts_end := some 90 }

/-- An A-side in-progress challenge record for concrete fetch executions. -/
def chIPEx : ChallengeData :=
  { duel_id := "d3", table_id := "t", premise := "1", quote := "q",
    address_a := "0xa", address_b := "0xc",
    duelist_id_a := "5", duelist_id_b := "6",
    state := "InProgress", winner := none, ts_start := 40, ts_end := some 80 }

/-- The merged A-side form of `chIPEx`. -/
def chIPChallenge : Challenge :=
  { toChallengeData := chIPEx, duelist_id := chIPEx.duelist_id_a }

theorem storeGet_storeDelete (m : List (String × StoredSecret)) (k : String) :
    storeGet (storeDelete m k) k = none := by
  induction m with
  | nil => rfl
  | cons p rest ih =>
      obtain ⟨q, v⟩ := p
      by_cases hq : q = k <;> simp [storeDelete, storeGet, hq, ih]

/-- C1: with a secret already stored for duel id "1" and not yet
consumed by reveal, a second `commit_moves` whose write resolves with
events replaces the stored salt, moves and hash with the freshly
generated ones — the first stored secret is lost, refuting the claim
that it is unchanged after the second call. -/
theorem commit_moves_overwrites_stored_secret :
    storeGet stWithSecret.committedMoves "1" = some firstSecretEx ∧
    storeGet (commit_moves hashFnEx stWithSecret "7" "1" [2, 8, 1, 1] 7
        (.resolves [evEx])).state.committedMoves "1" =
      some { salt := 7, moves := [2, 8, 1, 1], hash := hashFnEx 7 [2, 8, 1, 1] } ∧
    storeGet (commit_moves hashFnEx stWithSecret "7" "1" [2, 8, 1, 1] 7
        (.resolves [evEx])).state.committedMoves "1" ≠ some firstSecretEx := by
  decide

/-- C2 counterexample: in a concrete successful `commit_moves`
execution the external commit submission is the first step and the
secret is persisted only afterwards, so there is an execution point
with the hash submitted externally and no secret stored — refuting the
persist-before-submit ordering claim. -/
theorem commit_moves_submit_first_cex :
    (commit_moves hashFnEx stEmpty "7" "2" [3, 7, 1, 2] 5 (.resolves [evEx])).trace =
      [Step.submitCommit "7" "2" (hashFnEx 5 [3, 7, 1, 2]),
       Step.persistSecret "2" { salt := 5, moves := [3, 7, 1, 2],
                                hash := hashFnEx 5 [3, 7, 1, 2] }] ∧
    secretPersistedBeforeSubmit
      (commit_moves hashFnEx stEmpty "7" "2" [3, 7, 1, 2] 5 (.resolves [evEx])).trace = false := by
  decide

/-- C2 (amended): in every execution of `commit_moves` the external
commit write is submitted first; the salt, moves and hash are persisted
to the secret store only after the write, and only when it resolves
with at least one event — so no commit submission is ever preceded by a
persisted secret. -/
theorem commit_moves_trace_order (hashFn : Nat → List Int → Nat) (st : PistolsState)
    (duelistId duelId : String) (moves : List Int) (salt : Nat) (wr : WriteResult) :
    (commit_moves hashFn st duelistId duelId moves salt wr).trace.head? =
      some (Step.submitCommit duelistId duelId (hashFn salt moves)) ∧
    secretPersistedBeforeSubmit
      (commit_moves hashFn st duelistId duelId moves salt wr).trace = false := by
  rcases wr with msg | events
  · simp [commit_moves, secretPersistedBeforeSubmit, secretPersistedBeforeSubmitAux]
  · by_cases he : events.length > 0 <;>
      simp [commit_moves, he, secretPersistedBeforeSubmit, secretPersistedBeforeSubmitAux]

/-- C3: `commit_moves` performs no local validation of the move tuple:
the invalid tuple `[0, 0, 0]` (three values, none of them a 1-10 step)
is still submitted externally, and when the write resolves with events
the action reports success — refuting local rejection with no external
write. -/
theorem commit_moves_accepts_invalid_moves :
    specValidMoves [0, 0, 0] = false ∧
    (commit_moves hashFnEx stEmpty "7" "3" [0, 0, 0] 4 (.resolves [evEx])).result.success = true ∧
    (commit_moves hashFnEx stEmpty "7" "3" [0, 0, 0] 4
        (.resolves [evEx])).trace.any Step.isExternalWrite = true := by
  decide

/-- C4 counterexample: a concrete `accept_challenge` against a
challenge whose expiry deadline (timestamps.end = 100) is already past
at current time 200 still submits the on-chain reply and reports
success — no guard is evaluated before the external write. -/
theorem accept_challenge_no_guard_cex :
    chExpired.ts_end = some 100 ∧ (100 : Nat) ≤ 200 ∧
    (accept_challenge stWithExpired "3" "d1" (.resolves [evEx])).trace =
      [Step.submitReply "3" "d1"] ∧
    (accept_challenge stWithExpired "3" "d1" (.resolves [evEx])).result.success = true := by
  decide

/-- C4 (amended): `accept_challenge` checks no local guards: for every
pre-state and arguments — in particular for expired challenges and busy
duelists — its trace is exactly the one on-chain reply submission, so
rejection can only come from the external write itself. -/
theorem accept_challenge_always_submits (st : PistolsState)
    (duelistId challengeId : String) (wr : WriteResult) :
    (accept_challenge st duelistId challengeId wr).trace =
      [Step.submitReply duelistId challengeId] := by
  cases wr <;> rfl

/-- C5: with no committed move set stored for the duel id,
`reveal_moves` fails with the structured missing-secret error (success
flag false, failure message, error detail), leaves the state unchanged,
and submits no external write. -/
theorem reveal_moves_missing_secret (st : PistolsState) (duelistId duelId : String)
    (wr : WriteResult) (h : storeGet st.committedMoves duelId = none) :
    (reveal_moves st duelistId duelId wr).result.success = false ∧
    (reveal_moves st duelistId duelId wr).result.message = "Failed to reveal moves" ∧
    (reveal_moves st duelistId duelId wr).result.error =
      some "No committed moves found for this duel" ∧
    (reveal_moves st duelistId duelId wr).trace = [] ∧
    (reveal_moves st duelistId duelId wr).state = st := by
  simp [reveal_moves, h]

/-- C5 witness: the concrete execution on the empty store. -/
theorem reveal_moves_missing_secret_witness :
    storeGet stEmpty.committedMoves "9" = none ∧
    ((reveal_moves stEmpty "7" "9" (.resolves [evEx])).result.success = false ∧
     (reveal_moves stEmpty "7" "9" (.resolves [evEx])).result.message =
       "Failed to reveal moves" ∧
     (reveal_moves stEmpty "7" "9" (.resolves [evEx])).result.error =
       some "No committed moves found for this duel" ∧
     (reveal_moves stEmpty "7" "9" (.resolves [evEx])).trace = [] ∧
     (reveal_moves stEmpty "7" "9" (.resolves [evEx])).state = stEmpty) :=
  ⟨by decide, reveal_moves_missing_secret stEmpty "7" "9" (.resolves [evEx]) (by decide)⟩

/-- C6: given a stored secret for the duel id, `reveal_moves` deletes
it only after the reveal submission is confirmed (the trace is the
submission followed by the deletion, and success holds exactly when the
write resolved with events); on every failure path the state — and so
the stored salt and moves — is unchanged; on success the returned
result presents exactly the stored salt and moves. -/
theorem reveal_moves_secret_lifecycle (st : PistolsState) (duelistId duelId : String)
    (wr : WriteResult) (s : StoredSecret)
    (h : storeGet st.committedMoves duelId = some s) :
    ((reveal_moves st duelistId duelId wr).result.success = true →
      (reveal_moves st duelistId duelId wr).result.salt = some s.salt ∧
      (reveal_moves st duelistId duelId wr).result.moves = some s.moves ∧
      storeGet (reveal_moves st duelistId duelId wr).state.committedMoves duelId = none ∧
      (reveal_moves st duelistId duelId wr).trace =
        [Step.submitReveal duelistId duelId s.salt s.moves, Step.deleteSecret duelId]) ∧
    ((reveal_moves st duelistId duelId wr).result.success = false →
      (reveal_moves st duelistId duelId wr).state = st ∧
      storeGet (reveal_moves st duelistId duelId wr).state.committedMoves duelId = some s) ∧
    ((reveal_moves st duelistId duelId wr).result.success = WriteResult.confirmed wr) := by
  rcases wr with msg | events
  · simp [reveal_moves, h, WriteResult.confirmed]
  · by_cases he : events.length > 0 <;>
      simp [reveal_moves, h, he, WriteResult.confirmed, storeGet_storeDelete]

/-- C6 witness: the concrete confirmed execution on the state holding
the first secret for duel id "1". -/
theorem reveal_moves_secret_lifecycle_witness :
    storeGet stWithSecret.committedMoves "1" = some firstSecretEx ∧
    (((reveal_moves stWithSecret "7" "1" (.resolves [evEx])).result.success = true →
      (reveal_moves stWithSecret "7" "1" (.resolves [evEx])).result.salt =
        some firstSecretEx.salt ∧
      (reveal_moves stWithSecret "7" "1" (.resolves [evEx])).result.moves =
        some firstSecretEx.moves ∧
      storeGet (reveal_moves stWithSecret "7" "1"
          (.resolves [evEx])).state.committedMoves "1" = none ∧
      (reveal_moves stWithSecret "7" "1" (.resolves [evEx])).trace =
        [Step.submitReveal "7" "1" firstSecretEx.salt firstSecretEx.moves,
         Step.deleteSecret "1"]) ∧
     ((reveal_moves stWithSecret "7" "1" (.resolves [evEx])).result.success = false →
      (reveal_moves stWithSecret "7" "1" (.resolves [evEx])).state = stWithSecret ∧
      storeGet (reveal_moves stWithSecret "7" "1"
          (.resolves [evEx])).state.committedMoves "1" = some firstSecretEx) ∧
     ((reveal_moves stWithSecret "7" "1" (.resolves [evEx])).result.success =
       WriteResult.confirmed (.resolves [evEx]))) :=
  ⟨by decide,
   reveal_moves_secret_lifecycle stWithSecret "7" "1" (.resolves [evEx]) firstSecretEx
     (by decide)⟩

theorem statePriority_eq_zero {s : String} (h : statePriority s = 0) : s = "InProgress" := by
  unfold statePriority at h
  split_ifs at h
  assumption

/-- C7: the active list computed by `fetch_challenges` contains exactly
the merged challenges whose state is InProgress or Awaiting (terminal
states are excluded), every InProgress entry precedes every Awaiting
entry, and entries of equal state appear in descending start-timestamp
order. -/
theorem fetch_challenges_active_ordering (aL bL : List ChallengeData) :
    (∀ c : Challenge, c ∈ activeChallengesOf aL bL ↔
      (c ∈ challengesAsA aL ++ challengesAsB bL ∧
        (c.state = "InProgress" ∨ c.state = "Awaiting"))) ∧
    (activeChallengesOf aL bL).Pairwise (fun x y =>
      (y.state = "InProgress" → x.state = "InProgress") ∧
      (x.state = y.state → y.ts_start ≤ x.ts_start)) := by
  constructor
  · intro c
    simp only [activeChallengesOf, sortedChallenges, List.mem_filter,
      (List.perm_insertionSort challengeBefore
        (challengesAsA aL ++ challengesAsB bL)).mem_iff]
    simp [isActiveState]
  · have hp : (sortedChallenges aL bL).Pairwise challengeBefore :=
      List.sorted_insertionSort challengeBefore (challengesAsA aL ++ challengesAsB bL)
    have hf : (activeChallengesOf aL bL).Pairwise challengeBefore :=
      List.Pairwise.filter isActiveState hp
    refine hf.imp ?_
    intro a b hab
    unfold challengeBefore at hab
    constructor
    · intro hb
      have hpb : statePriority b.state = 0 := by rw [hb]; rfl
      rcases hab with h1 | ⟨h1, _⟩
      · exact absurd (hpb ▸ h1) (Nat.not_lt_zero _)
      · exact statePriority_eq_zero (by omega)
    · intro hxy
      have hpeq : statePriority a.state = statePriority b.state := by rw [hxy]
      rcases hab with h1 | ⟨_, h2⟩
      · omega
      · exact h2

/-- C7 witness: a concrete fetch with an InProgress A-side record and
an Awaiting B-side record. -/
theorem fetch_challenges_active_ordering_witness :
    (chIPChallenge ∈ activeChallengesOf [chIPEx] [chDataEx] ↔
      (chIPChallenge ∈ challengesAsA [chIPEx] ++ challengesAsB [chDataEx] ∧
        (chIPChallenge.state = "InProgress" ∨ chIPChallenge.state = "Awaiting"))) ∧
    (activeChallengesOf [chIPEx] [chDataEx]).Pairwise (fun x y =>
      (y.state = "InProgress" → x.state = "InProgress") ∧
      (x.state = y.state → y.ts_start ≤ x.ts_start)) :=
  ⟨(fetch_challenges_active_ordering [chIPEx] [chDataEx]).1 chIPChallenge,
   (fetch_challenges_active_ordering [chIPEx] [chDataEx]).2⟩

/-- C10: whenever `fetch_challenges` finds a non-empty active list,
every challenge it stores in `state.activeChallenges` — including
B-side challenges, whose merge step had tagged them with
`duelist_id := duelist_id_b` — ends up with `duelist_id` equal to its
own `duelist_id_a`. -/
theorem fetch_challenges_duelist_id_overwrite (st : PistolsState)
    (aL bL : List ChallengeData) (h : activeChallengesOf aL bL ≠ []) :
    (∀ c ∈ (fetch_challenges_update st aL bL).activeChallenges,
      c.duelist_id = c.duelist_id_a) ∧
    (∀ c ∈ challengesAsB bL, c.duelist_id = c.duelist_id_b) := by
  constructor
  · intro c hc
    rcases he : activeChallengesOf aL bL with _ | ⟨cur, rest⟩
    · exact absurd he h
    · simp only [fetch_challenges_update, he, List.mem_map] at hc
      obtain ⟨x, _, rfl⟩ := hc
      rfl
  · intro c hc
    simp only [challengesAsB, List.mem_map] at hc
    obtain ⟨n, _, rfl⟩ := hc
    rfl

/-- C10 witness: a concrete fetch whose only record is the B-side
awaiting challenge `chDataEx`. -/
theorem fetch_challenges_duelist_id_overwrite_witness :
    activeChallengesOf [] [chDataEx] ≠ [] ∧
    ((∀ c ∈ (fetch_challenges_update stEmpty [] [chDataEx]).activeChallenges,
      c.duelist_id = c.duelist_id_a) ∧
     (∀ c ∈ challengesAsB [chDataEx], c.duelist_id = c.duelist_id_b)) :=
  ⟨by decide, fetch_challenges_duelist_id_overwrite stEmpty [] [chDataEx] (by decide)⟩

/-- C8 counterexample: "0x0abc" and "0xabc" are two textual forms of
the same address (identical canonical form), yet `analyze_duel_history`
classifies a record whose raw `address_a` is "0x0abc" as not-player-A
for the caller address "0x0abc": the A-side comparison is raw string
equality against the normalized input, so it does not treat the two
forms as equal. -/
theorem address_forms_compare_unequal_cex :
    normalizeStarknetAddress "0x0abc" = normalizeStarknetAddress "0xabc" ∧
    chC8.address_a = "0x0abc" ∧
    analyze_isPlayerA chC8 "0x0abc" = false := by
  decide

/-- C8 (amended): caller-supplied addresses are normalized once at
handler entry, but address fields arriving in API records are compared
by raw string equality: `analyze_duel_history` classifies a record as
the player's A-side exactly when its raw `address_a` literally equals
the normalized caller address, so a record whose `address_a` is a
non-canonical textual form of the caller's address is classified as
not-player-A. -/
theorem analyze_isPlayerA_raw_equality (c : ChallengeData) (a : String) :
    (analyze_isPlayerA c a = true ↔ c.address_a = normalizeStarknetAddress a) ∧
    (normalizeStarknetAddress c.address_a = normalizeStarknetAddress a →
      c.address_a ≠ normalizeStarknetAddress a → analyze_isPlayerA c a = false) := by
  constructor
  · simp [analyze_isPlayerA, duelInfo]
  · intro _ hne
    simp [analyze_isPlayerA, duelInfo, hne]

/-- C8 amended-claim witness: the uppercase non-canonical record. -/
theorem analyze_isPlayerA_raw_equality_witness :
    normalizeStarknetAddress chC8w.address_a = normalizeStarknetAddress "0x0abc" ∧
    chC8w.address_a ≠ normalizeStarknetAddress "0x0abc" ∧
    analyze_isPlayerA chC8w "0x0abc" = false :=
  ⟨by decide, by decide,
   (analyze_isPlayerA_raw_equality chC8w "0x0abc").2 (by decide) (by decide)⟩
